import Mathlib

/-!
Verification of the chess-gpt-advisor repository: a shallow embedding of
the position extractor, FEN validation, change watcher, client-side
suggestion orchestrator and the suggestion proxy service, together with
theorems settling the frozen claims about them.

String-valued JavaScript operations (split, trim, includes, the regular
expressions used by the validators) are embedded as executable functions
over `List Char` / `String`.
-/

namespace ChessAdvisor

/-! ## JavaScript string primitives -/

/-- The character class of JavaScript `\s` (and of `String.prototype.trim`):
WhiteSpace plus LineTerminator code points. -/
def jsWhitespaceChar (c : Char) : Bool :=
  c = ' ' || c = '\t' || c = '\n' || c.toNat = 11 || c.toNat = 12 || c = '\r' ||
  c.toNat = 160 || c.toNat = 5760 || (8192 ≤ c.toNat && c.toNat ≤ 8202) ||
  c.toNat = 8232 || c.toNat = 8233 || c.toNat = 8239 || c.toNat = 8287 ||
  c.toNat = 12288 || c.toNat = 65279

/-- Split a character list at every character satisfying `p`
(JavaScript `String.prototype.split` with a single-character separator:
no collapsing of adjacent separators, `""` splits to `[""]`). -/
def splitOnPredAux (p : Char → Bool) : List Char → List Char → List (List Char)
  | [], acc => [acc.reverse]
  | c :: cs, acc =>
      if p c then acc.reverse :: splitOnPredAux p cs []
      else splitOnPredAux p cs (c :: acc)

def splitOnPred (p : Char → Bool) (cs : List Char) : List (List Char) :=
  splitOnPredAux p cs []

/-- JavaScript `s.split(sep)` for a one-character separator string. -/
def jsSplit (s : String) (sep : Char) : List String :=
  (splitOnPred (fun c => c == sep) s.data).map (fun cs => String.mk cs)

/-- JavaScript `String.prototype.trim`. -/
def jsTrim (s : String) : String :=
  String.mk (((s.data.dropWhile jsWhitespaceChar).reverse.dropWhile
    jsWhitespaceChar).reverse)

/-- Does `needle` occur as a leading run of `hay`? -/
def leadMatches : List Char → List Char → Bool
  | _, [] => true
  | [], _ :: _ => false
  | a :: as, b :: bs => a = b && leadMatches as bs

/-- Does `needle` occur contiguously anywhere in `hay`? -/
def seqContains : List Char → List Char → Bool
  | [], needle => needle.isEmpty
  | c :: cs, needle => leadMatches (c :: cs) needle || seqContains cs needle

/-- JavaScript `s.includes(sub)` (contiguous-substring test). -/
def jsIncludes (s sub : String) : Bool :=
  seqContains s.data sub.data

/-! ## Client-side FEN-shape validator — embeds `isValidFEN`
(content script, `src/unnamed/part_001` lines 138-173). -/

/-- One of the twelve piece letters `pnbrqkPNBRQK`. -/
def isPieceChar (c : Char) : Bool :=
  c = 'p' || c = 'n' || c = 'b' || c = 'r' || c = 'q' || c = 'k' ||
  c = 'P' || c = 'N' || c = 'B' || c = 'R' || c = 'Q' || c = 'K'

/-- One of the digits `1`-`8`. -/
def isRankDigit (c : Char) : Bool :=
  '1' ≤ c && c ≤ '8'

/-- Expanded square count of one rank of the first FEN field: digits add
their value, piece letters add one, any other character is a shape error
(`none`). Embeds the per-rank loop of `isValidFEN`. -/
def rankSquareSum : List Char → Option Nat
  | [] => some 0
  | c :: cs =>
      if isRankDigit c then (rankSquareSum cs).map (· + (c.toNat - '0'.toNat))
      else if isPieceChar c then (rankSquareSum cs).map (· + 1)
      else none

/-- The position-field check of `isValidFEN`: 8 slash-separated ranks,
each expanding to exactly 8 squares. -/
def checkPositionField (position : String) : Bool :=
  let ranks := jsSplit position '/'
  ranks.length = 8 && ranks.all (fun r => rankSquareSum r.data == some 8)

/-- One of the castling letters `KQkq`. -/
def isCastleChar (c : Char) : Bool :=
  c = 'K' || c = 'Q' || c = 'k' || c = 'q'

/-- Truthiness of `castling.match(/^-|[KQkq]+$/)`.  By regex alternation
precedence this matches when the field starts with `-` or when it ends
with a castling letter (an end-anchored nonempty `[KQkq]` run exists
exactly when the last character is a castling letter). -/
def castlingRegexTest (castling : String) : Bool :=
  castling.data.head? = some '-' ||
    (match castling.data.getLast? with
     | some c => isCastleChar c
     | none => false)

/-- Truthiness of `enPassant.match(/^(-|[a-h][36])$/)` (fully anchored). -/
def enPassantRegexTest (enPassant : String) : Bool :=
  match enPassant.data with
  | ['-'] => true
  | [f, r] => ('a' ≤ f && f ≤ 'h') && (r = '3' || r = '6')
  | _ => false

/-- Truthiness of `s.match(/^\d+$/)`: a nonempty run of decimal digits. -/
def digitsOnly (s : String) : Bool :=
  !s.data.isEmpty && s.data.all (fun c => '0' ≤ c && c ≤ '9')

/-- The six-field body of `isValidFEN`, applied to the space-split parts. -/
def validFenFields : List String → Bool
  | [position, turn, castling, enPassant, halfMove, fullMove] =>
      checkPositionField position &&
      jsIncludes "wb" turn &&
      castlingRegexTest castling &&
      enPassantRegexTest enPassant &&
      digitsOnly halfMove &&
      digitsOnly fullMove
  | _ => false

/-- Embeds `isValidFEN` (content script): falsy/empty input is rejected,
the string is split on spaces into exactly six fields, the position field
must have 8 ranks each expanding to 8 squares, the turn field must pass
`'wb'.includes(turn)`, and the remaining fields must pass their regex
tests. -/
def isValidFEN (fen : String) : Bool :=
  if fen = "" then false
  else validFenFields (jsSplit fen ' ')

/-- The hardcoded starting position of the content script
(`STARTING_FEN`, `src/unnamed/part_001` line 39). -/
def STARTING_FEN : String :=
  "rnbqkbnr/pppppppp/8/8/8/8/PPPPPPPP/RNBQKBNR w KQkq - 0 1"

example : isValidFEN STARTING_FEN = true := by decide

example : isValidFEN "rnbqkbnr/pppppppp/8/8/8/8/PPPPPPPP/RNBQKBNR w -x - 0 1" = true := by
  decide

example : isValidFEN "p/p/p/p/p/p/p/p w KQkq - 0 1" = false := by decide

/-! ## The narrow per-field grammars named by the claims (spec §3, §8).
Where the spec's grammar coincides verbatim with the code's check (the
position, en-passant and counter fields) the grammar predicate is the
code's check; the turn and castling grammars are stated independently. -/

/-- Grammar of the position field: 8 slash-separated ranks, each
expanding to exactly 8 squares (coincides with the code's check). -/
def specPositionOk (position : String) : Bool :=
  checkPositionField position

/-- Grammar of the turn field: exactly `w` or `b`. -/
def specTurnOk (turn : String) : Bool :=
  turn == "w" || turn == "b"

/-- Grammar of the castling field: `-`, or a nonempty string of letters
from `KQkq`. -/
def specCastlingOk (castling : String) : Bool :=
  castling == "-" || (!castling.data.isEmpty && castling.data.all isCastleChar)

/-- Grammar of the en-passant field: `-` or a file letter plus rank 3 or 6
(coincides with the code's anchored regex). -/
def specEnPassantOk (enPassant : String) : Bool :=
  enPassantRegexTest enPassant

/-- Grammar of the two counter fields: a nonempty digit string
(coincides with the code's anchored regex). -/
def specCounterOk (counter : String) : Bool :=
  digitsOnly counter

/-! ## Server-side position check — embeds the regular expression of
`app.post('/suggest-move')` (`src/backend/server.js` line 113):
`^([pnbrqkPNBRQK1-8]+\/){7}[pnbrqkPNBRQK1-8]+\s[bw]\s[kqKQ-]+\s[a-h1-8-]+\s\d+\s\d+$`.
None of the character classes contains a whitespace character and each
`\s` consumes exactly one whitespace character, so the anchored regex
matches a string exactly when splitting it at every whitespace character
yields the six tokens below, each matching its class. -/

/-- The class `[pnbrqkPNBRQK1-8]`. -/
def serverClsA (c : Char) : Bool :=
  isPieceChar c || isRankDigit c

/-- The class `[kqKQ-]`. -/
def serverClsC (c : Char) : Bool :=
  c = 'k' || c = 'q' || c = 'K' || c = 'Q' || c = '-'

/-- The class `[a-h1-8-]`. -/
def serverClsD (c : Char) : Bool :=
  ('a' ≤ c && c ≤ 'h') || isRankDigit c || c = '-'

/-- The class `\d` = `[0-9]`. -/
def isDigitChar (c : Char) : Bool :=
  '0' ≤ c && c ≤ '9'

/-- The group `([pnbrqkPNBRQK1-8]+\/){7}[pnbrqkPNBRQK1-8]+`: eight
slash-separated nonempty runs of class-A characters. -/
def serverPositionGroups (a : String) : Bool :=
  let gs := jsSplit a '/'
  gs.length = 8 && gs.all (fun g => !g.data.isEmpty && g.data.all serverClsA)

/-- The server's single regular expression as a whole-string matcher. -/
def serverFenRegex (s : String) : Bool :=
  match (splitOnPred jsWhitespaceChar s.data).map (fun cs => String.mk cs) with
  | [a, b, c, d, e, f] =>
      serverPositionGroups a &&
      (b == "b" || b == "w") &&
      (!c.data.isEmpty && c.data.all serverClsC) &&
      (!d.data.isEmpty && d.data.all serverClsD) &&
      (!e.data.isEmpty && e.data.all isDigitChar) &&
      (!f.data.isEmpty && f.data.all isDigitChar)
  | _ => false

example : serverFenRegex STARTING_FEN = true := by decide

example : serverFenRegex "p/p/p/p/p/p/p/p w KQkq - 0 1" = true := by decide

/-! ## Suggestion proxy service — embeds `src/backend/server.js`:
the rate-limit middleware, the `/suggest-move` handler and
`getRemainingRequests`.  The in-memory rate limiter
(`rate-limiter-flexible`'s `RateLimiterMemory`) is modelled by its
documented behaviour: `consume(key)` adds one point unless the per-window
cap is exceeded, in which case it rejects carrying a non-negative
`msBeforeNext`; `get(key)` is read-only.  The oracle (the OpenAI chat
completion) is an opaque parameter; the `processingTime` field and log
lines are omitted. -/

/-- Deployment configuration: `NODE_ENV === 'production'`. -/
structure ServerConfig where
  isProduction : Bool

def prodConfig : ServerConfig := ⟨true⟩

def devConfig : ServerConfig := ⟨false⟩

/-- `points: isProduction ? 10 : 100` (server.js line 50): the per-window
cap of the rate limiter. -/
def rateLimiterPoints (cfg : ServerConfig) : Nat :=
  if cfg.isProduction then 10 else 100

/-- State of the in-memory rate limiter: consumed points and milliseconds
until the window resets, per caller key (absent keys have 0 consumed). -/
structure RLState where
  consumed : String → Nat
  msBeforeNext : String → Nat

/-- An inbound `/suggest-move` request: optional `x-user-id` header,
network address, and JSON body fields (absent fields are `none`). -/
structure SMRequest where
  xUserId : Option String
  ip : String
  gameState : Option String
  currentMove : Option String
  playerColor : Option String

/-- The observable response of `/suggest-move`. -/
structure SMResponse where
  status : Nat
  errorMsg : Option String
  retryAfter : Option ℚ
  suggestion : Option String
  remainingRequests : Option Int

/-- JavaScript truthiness of an optional string (absent or empty is
falsy). -/
def jsTruthyStr : Option String → Bool
  | none => false
  | some s => !(s == "")

/-- `req.headers['x-user-id'] || req.ip` (server.js line 78). -/
def effectiveUserId (req : SMRequest) : String :=
  match req.xUserId with
  | some u => if u = "" then req.ip else u
  | none => req.ip

/-- Embeds `getRemainingRequests` (server.js lines 151-159):
`Math.max(0, 10 - consumedPoints)`, and `10` when the limiter holds no
record for the key — which coincides with the formula at 0 consumed
points.  It only reads the limiter (`rateLimiter.get`). -/
def getRemainingRequests (st : RLState) (userId : String) : Int :=
  max 0 (10 - (st.consumed userId : Int))

/-- `rateLimiter.consume(userId)` in the success case: one more point
consumed for the key. -/
def consumeOne (st : RLState) (userId : String) : RLState :=
  { st with
    consumed := fun k => if k = userId then st.consumed k + 1 else st.consumed k }

/-- Embeds the `/suggest-move` pipeline: the rate-limit middleware
(consume a point or answer 429), then the handler (missing-field check,
server regex check, oracle call).  Returns the response, the limiter
state after the request, and whether the oracle was called. -/
def suggestMove (cfg : ServerConfig)
    (oracle : String → String → Option String → String)
    (st : RLState) (req : SMRequest) : SMResponse × RLState × Bool :=
  let userId := effectiveUserId req
  if rateLimiterPoints cfg < st.consumed userId + 1 then
    ({ status := 429,
       errorMsg := some "Too many requests. Please try again later.",
       retryAfter := some ((st.msBeforeNext userId : ℚ) / 1000),
       suggestion := none, remainingRequests := none }, st, false)
  else
    let st1 := consumeOne st userId
    if !(jsTruthyStr req.gameState && jsTruthyStr req.currentMove) then
      ({ status := 400, errorMsg := some "Missing required game information",
         retryAfter := none, suggestion := none, remainingRequests := none },
       st1, false)
    else
      match req.gameState, req.currentMove with
      | some g, some m =>
          if !serverFenRegex g then
            ({ status := 400, errorMsg := some "Invalid chess position format",
               retryAfter := none, suggestion := none, remainingRequests := none },
             st1, false)
          else
            ({ status := 200, errorMsg := none, retryAfter := none,
               suggestion := some (jsTrim (oracle g m req.playerColor)),
               remainingRequests := some (getRemainingRequests st1 req.ip) },
             st1, true)
      | _, _ =>
          ({ status := 400, errorMsg := some "Missing required game information",
             retryAfter := none, suggestion := none, remainingRequests := none },
           st1, false)

/-- A concrete oracle used by closed counterexamples and witnesses. -/
def oracle0 : String → String → Option String → String :=
  fun _ _ _ => "White Pawn --> e4"

/-- A fresh limiter state: nothing consumed, window just started. -/
def st0 : RLState :=
  { consumed := fun _ => 0, msBeforeNext := fun _ => 0 }

/-! ## Position extractor — embeds `getCurrentFEN` and `isInActiveGame`
(`src/unnamed/part_001` lines 176-287).  The page is modelled as a
snapshot of the selector probes the extractor performs: each element is
either absent (`none`) or present with the attribute values read from
it (`getAttribute` returns `none` for a missing attribute). -/

/-- The four attributes probed on the `chess-board` element. -/
structure ChessBoardAttrs where
  fen : Option String
  position : Option String
  dataFen : Option String
  dataPosition : Option String

/-- A snapshot of the page as seen by the extractor's selector probes.
`wcChessBoard` is the `position` attribute of `wc-chess-board` when that
element is present; `gameGetFen` models `window.game.getFen` (`none`
when no usable game object exists, `Except.error` when the call throws);
`boardContainerAttr` is the `data-board-position` attribute when both
`.board-layout-main` and its `.board-container` are present;
`analysisBoardAttr` is the `data-fen` attribute when both
`.analysis-board` and its `.board` child are present.  The remaining
flags are the game-indicator probes of `isInActiveGame`. -/
structure Dom where
  urlHasGamePath : Bool
  wcChessBoard : Option (Option String)
  chessBoard : Option ChessBoardAttrs
  gameGetFen : Option (Except Unit String)
  boardContainerAttr : Option (Option String)
  analysisBoardAttr : Option (Option String)
  hasBoardClass : Bool
  hasMoveList : Bool
  hasGameControls : Bool
  hasPlayerRow : Bool
  hasClockComponent : Bool

/-- `value && isValidFEN(value)`: an attribute candidate survives when it
is present, nonempty and passes the FEN-shape validator. -/
def attrCandidate (v : Option String) : Option String :=
  match v with
  | some s => if s ≠ "" && isValidFEN s then some s else none
  | none => none

/-- Method 1: the `position` attribute of `wc-chess-board`. -/
def wcBoardFen (d : Dom) : Option String :=
  match d.wcChessBoard with
  | some attr => attrCandidate attr
  | none => none

/-- The `window.game && window.game.getFen` probe (inside method 2):
the value is kept when `getFen()` does not throw and its result passes
the validator (no truthiness check on this path). -/
def gameObjFen (d : Dom) : Option String :=
  match d.gameGetFen with
  | some (Except.ok f) => if isValidFEN f then some f else none
  | _ => none

/-- Method 2: the `chess-board` element — the four attributes in order,
then the game-object probe, all only when the element is present. -/
def chessBoardFen (d : Dom) : Option String :=
  match d.chessBoard with
  | some a =>
      match attrCandidate a.fen with
      | some f => some f
      | none =>
        match attrCandidate a.position with
        | some f => some f
        | none =>
          match attrCandidate a.dataFen with
          | some f => some f
          | none =>
            match attrCandidate a.dataPosition with
            | some f => some f
            | none => gameObjFen d
  | none => none

/-- Method 3: `data-board-position` on the board container. -/
def containerFen (d : Dom) : Option String :=
  match d.boardContainerAttr with
  | some attr => attrCandidate attr
  | none => none

/-- Method 4: `data-fen` on the analysis board. -/
def analysisFen (d : Dom) : Option String :=
  match d.analysisBoardAttr with
  | some attr => attrCandidate attr
  | none => none

/-- The disjunction of the eight game indicators of `isInActiveGame`
(lines 259-273), on a page snapshot. -/
def gameIndicatorsAny (d : Dom) : Bool :=
  d.urlHasGamePath || d.wcChessBoard.isSome || d.chessBoard.isSome ||
  d.hasBoardClass || d.hasMoveList || d.hasGameControls ||
  d.hasPlayerRow || d.hasClockComponent

/-- Truthiness of the value `isInActiveGame(retryCount)` returns to a
synchronous (un-awaited) caller: the boolean `isInGame` when the
indicators pass or the retries are exhausted, and otherwise a pending
`Promise` — which is truthy. -/
def isInActiveGameTruthy (d : Dom) (retryCount : Nat) : Bool :=
  gameIndicatorsAny d || decide (retryCount < 3)

/-- The value `isInActiveGame()` resolves to when awaited against a
static page snapshot: the retries re-run the same probes, so the result
is the indicator disjunction. -/
def isInActiveGameAwaited (d : Dom) : Bool :=
  gameIndicatorsAny d

/-- Embeds `getCurrentFEN` (lines 176-252): the four extraction methods
in priority order, then the fallback — `if (isInActiveGame())`, a
synchronous call whose result's truthiness is `isInActiveGameTruthy d 0`,
guards returning the hardcoded starting position; otherwise `null`. -/
def getCurrentFEN (d : Dom) : Option String :=
  match wcBoardFen d with
  | some f => some f
  | none =>
    match chessBoardFen d with
    | some f => some f
    | none =>
      match containerFen d with
      | some f => some f
      | none =>
        match analysisFen d with
        | some f => some f
        | none =>
          if isInActiveGameTruthy d 0 then some STARTING_FEN
          else none

/-- A page snapshot with no recognized element and no indicator. -/
def emptyDom : Dom :=
  { urlHasGamePath := false, wcChessBoard := none, chessBoard := none,
    gameGetFen := none, boardContainerAttr := none,
    analysisBoardAttr := none, hasBoardClass := false, hasMoveList := false,
    hasGameControls := false, hasPlayerRow := false,
    hasClockComponent := false }

/-- A page snapshot where the primary board element carries a valid
position attribute. -/
def domOk : Dom :=
  { emptyDom with wcChessBoard := some (some STARTING_FEN) }

example : getCurrentFEN emptyDom = some STARTING_FEN := by decide

example : getCurrentFEN domOk = some STARTING_FEN := by decide

/-! ## Change watcher — embeds `formatGameState` and `analyzeMoves`
(`src/unnamed/part_001` lines 434-472). -/

/-- Split at every match of the regular expression `/\d+\./`.  Greedy
`\d+` followed by a literal `.` matches exactly a maximal nonempty digit
run immediately followed by `.`.  The scanner keeps the pending digit run
(`run`, reversed) apart from the current token (`acc`, reversed): a `.`
closing a nonempty run consumes run-plus-dot and emits the token;
anything else first flushes the pending run into the token. -/
def numDotSplitAux : List Char → List Char → List Char → List (List Char)
  | [], run, acc => [(run ++ acc).reverse]
  | c :: cs, run, acc =>
      if c.isDigit then numDotSplitAux cs (c :: run) acc
      else if c = '.' && !run.isEmpty then acc.reverse :: numDotSplitAux cs [] []
      else numDotSplitAux cs [] (c :: (run ++ acc))

/-- `moveText.split(/\d+\./)` as a list of strings. -/
def numDotSplit (s : String) : List String :=
  (numDotSplitAux s.data [] []).map (fun cs => String.mk cs)

example : numDotSplit "1.e4 e5 2.Nf3" = ["", "e4 e5 ", "Nf3"] := by decide

/-- The derived game-state snapshot (spec §3). -/
structure GameStateRec where
  fullGame : String
  moveCount : Nat
  lastMove : String
  isWhiteTurn : Bool

/-- Embeds `formatGameState` (lines 434-445): the trimmed move text is
split on `/\d+\./` and filtered to the tokens with nonempty trim; the
last move defaults to the sentinel `"start"`. -/
def formatGameState (moveText : String) : GameStateRec :=
  let trimmed := jsTrim moveText
  let moves := (numDotSplit trimmed).filter (fun m => !(jsTrim m == ""))
  { fullGame := trimmed
    moveCount := moves.length
    lastMove :=
      match moves.getLast? with
      | some m => if jsTrim m = "" then "start" else jsTrim m
      | none => "start"
    isWhiteTurn := (jsSplit moveText '.').length % 2 = 0 }

/-- The watcher's mutable state: the previously recorded move-list text
(`lastMoves`, `null` initially), the move counter and the turn flag. -/
structure WatcherState where
  lastMoves : Option String
  moveCount : Nat
  isWhiteTurn : Bool

/-- Embeds `analyzeMoves` (lines 448-472) on a snapshot of the move-list
element's text (`none` when the element is absent).  Returns the updated
watcher state and whether `getAnalysis` was triggered. -/
def analyzeMoves (moveListText : Option String) (w : WatcherState) :
    WatcherState × Bool :=
  match moveListText with
  | none => (w, false)
  | some txt =>
      let moves := jsTrim txt
      if some moves = w.lastMoves then (w, false)
      else
        let gs := formatGameState moves
        ({ lastMoves := some moves, moveCount := w.moveCount + 1,
           isWhiteTurn := gs.isWhiteTurn }, true)

example : (analyzeMoves (some "1.e4 e5") ⟨none, 0, true⟩).2 = true := by decide

example : (formatGameState "1.e4 e5 2.Nf3").lastMove = "Nf3" := by decide

/-! ## Client-side suggestion orchestrator — embeds `getAnalysis`
(`src/unnamed/part_001` lines 326-431).

`getAnalysis` is an async function running on the page's single-threaded
event loop: control can only change hands at its `await` points.  It is
modelled as a task stepping through atomic segments delimited by those
suspension points: the synchronous prefix up to `await isInActiveGame()`,
the segment from that resumption up to `await fetch(...)` (which is where
a network call is issued), and the remainder (the response handling and
the `finally` block, whose inner awaits are collapsed into one segment).
Every state assignment lands in the segment where the source performs
it. -/

/-- Where a `getAnalysis` invocation is suspended. -/
inductive APc where
  | start
  | activeWait
  | fetchWait
  | done
  | dropped
  deriving DecidableEq, Repr

/-- The content script's mutable globals, plus counters of network calls
issued and completed by suggestion requests. -/
structure CState where
  isAnalyzing : Bool
  isBackendConnected : Bool
  consecutiveErrors : Nat
  callsIssued : Nat
  callsCompleted : Nat
  deriving DecidableEq, Repr

/-- The environment of one run: the page snapshot and whether the fetch
resolves with an ok response. -/
structure AEnv where
  dom : Dom
  fetchOk : Bool

/-- One atomic segment of `getAnalysis`.

* From `start`: the in-flight guard — if `isAnalyzing` is set the call
  returns at once (silently dropped); otherwise it suspends at
  `await isInActiveGame()` without having touched `isAnalyzing`.
* From `activeWait`: the not-in-game and not-connected preconditions each
  return through `finally` (which sets `isAnalyzing` to false); otherwise
  `isAnalyzing` is set to true, the position is extracted — a null
  position throws, is caught (incrementing the error counter) and ends
  through `finally` — and otherwise the fetch is issued and the task
  suspends.
* From `fetchWait`: the response is handled (success resets the error
  counter and marks the backend connected; failure increments the error
  counter) and `finally` clears `isAnalyzing`. -/
def stepTask (env : AEnv) (s : CState) : APc → CState × APc
  | APc.start =>
      if s.isAnalyzing then (s, APc.dropped) else (s, APc.activeWait)
  | APc.activeWait =>
      if !isInActiveGameAwaited env.dom then
        ({ s with isAnalyzing := false }, APc.done)
      else if !s.isBackendConnected then
        ({ s with isAnalyzing := false }, APc.done)
      else
        match getCurrentFEN env.dom with
        | none =>
            ({ s with
                isAnalyzing := false,
                consecutiveErrors := s.consecutiveErrors + 1 }, APc.done)
        | some _ =>
            ({ s with
                isAnalyzing := true,
                callsIssued := s.callsIssued + 1 }, APc.fetchWait)
  | APc.fetchWait =>
      if env.fetchOk then
        ({ s with
            isAnalyzing := false,
            consecutiveErrors := 0,
            isBackendConnected := true,
            callsCompleted := s.callsCompleted + 1 }, APc.done)
      else
        ({ s with
            isAnalyzing := false,
            consecutiveErrors := s.consecutiveErrors + 1,
            callsCompleted := s.callsCompleted + 1 }, APc.done)
  | APc.done => (s, APc.done)
  | APc.dropped => (s, APc.dropped)

/-- Two concurrent `getAnalysis` invocations on the shared globals. -/
structure Sys where
  st : CState
  t1 : APc
  t2 : APc
  deriving DecidableEq, Repr

/-- Run one segment of the first invocation. -/
def stepT1 (env : AEnv) (sys : Sys) : Sys :=
  let r := stepTask env sys.st sys.t1
  { sys with st := r.1, t1 := r.2 }

/-- Run one segment of the second invocation. -/
def stepT2 (env : AEnv) (sys : Sys) : Sys :=
  let r := stepTask env sys.st sys.t2
  { sys with st := r.1, t2 := r.2 }

/-- An active, connected page with a fresh client state. -/
def env0 : AEnv := { dom := domOk, fetchOk := true }

def cs0 : CState :=
  { isAnalyzing := false, isBackendConnected := true,
    consecutiveErrors := 0, callsIssued := 0, callsCompleted := 0 }

def sys0 : Sys := { st := cs0, t1 := APc.start, t2 := APc.start }

/-! ## Concrete instances used by counterexamples and witnesses -/

/-- A request whose body lacks the `gameState` field. -/
def reqMissing : SMRequest :=
  { xUserId := none, ip := "1.1.1.1", gameState := none,
    currentMove := some "e4", playerColor := none }

/-- A well-formed request for the starting position. -/
def reqOk : SMRequest :=
  { xUserId := none, ip := "9.9.9.9", gameState := some STARTING_FEN,
    currentMove := some "start", playerColor := none }

/-- A limiter state with 11 points consumed for every key. -/
def st11 : RLState := { consumed := fun _ => 11, msBeforeNext := fun _ => 0 }

/-- A limiter state with the production cap fully consumed. -/
def st10 : RLState := { consumed := fun _ => 10, msBeforeNext := fun _ => 5000 }

/-- A client state with a suggestion request in flight. -/
def cs1 : CState :=
  { isAnalyzing := true, isBackendConnected := true,
    consecutiveErrors := 0, callsIssued := 1, callsCompleted := 0 }

/-- A watcher state that has already recorded a move-list text. -/
def w0 : WatcherState :=
  { lastMoves := some "1.e4", moveCount := 5, isWhiteTurn := true }

/-! ## Helper lemmas -/

theorem attrCandidate_valid {v : Option String} {s : String}
    (h : attrCandidate v = some s) : isValidFEN s = true := by
  cases v with
  | none => simp [attrCandidate] at h
  | some t =>
      simp only [attrCandidate] at h
      split at h
      · next hg =>
          cases h
          exact ((Bool.and_eq_true _ _).mp hg).2
      · cases h

theorem gameObjFen_valid {d : Dom} {s : String}
    (h : gameObjFen d = some s) : isValidFEN s = true := by
  unfold gameObjFen at h
  split at h
  · next f heq =>
      split at h
      · next hv => cases h; exact hv
      · cases h
  · cases h

theorem wcBoardFen_valid {d : Dom} {s : String}
    (h : wcBoardFen d = some s) : isValidFEN s = true := by
  unfold wcBoardFen at h
  split at h
  · exact attrCandidate_valid h
  · cases h

theorem chessBoardFen_valid {d : Dom} {s : String}
    (h : chessBoardFen d = some s) : isValidFEN s = true := by
  unfold chessBoardFen at h
  split at h
  · next a heq =>
      split at h
      · next f hf => cases h; exact attrCandidate_valid hf
      · split at h
        · next f hf => cases h; exact attrCandidate_valid hf
        · split at h
          · next f hf => cases h; exact attrCandidate_valid hf
          · split at h
            · next f hf => cases h; exact attrCandidate_valid hf
            · exact gameObjFen_valid h
  · cases h

theorem containerFen_valid {d : Dom} {s : String}
    (h : containerFen d = some s) : isValidFEN s = true := by
  unfold containerFen at h
  split at h
  · exact attrCandidate_valid h
  · cases h

theorem analysisFen_valid {d : Dom} {s : String}
    (h : analysisFen d = some s) : isValidFEN s = true := by
  unfold analysisFen at h
  split at h
  · exact attrCandidate_valid h
  · cases h

/-! ## Claim theorems -/

/-- C9: every non-null string returned by the extractor's
"get current position" operation passes the client FEN-shape validator —
each strategy only returns attribute values it has validated, and the
hardcoded starting-position fallback itself passes the validator. -/
theorem getCurrentFEN_valid (d : Dom) (s : String)
    (h : getCurrentFEN d = some s) : isValidFEN s = true := by
  unfold getCurrentFEN at h
  split at h
  · next hf => cases h; exact wcBoardFen_valid hf
  · split at h
    · next hf => cases h; exact chessBoardFen_valid hf
    · split at h
      · next hf => cases h; exact containerFen_valid hf
      · split at h
        · next hf => cases h; exact analysisFen_valid hf
        · split at h
          · cases h; decide
          · cases h

theorem getCurrentFEN_valid_witness :
    getCurrentFEN emptyDom = some STARTING_FEN ∧ isValidFEN STARTING_FEN = true :=
  ⟨by decide, getCurrentFEN_valid emptyDom STARTING_FEN (by decide)⟩

/-- C3 (code bug): on a page where every extraction strategy fails and
every game indicator is negative, the extractor still returns the
hardcoded starting position instead of the null failure signal the spec
requires — `getCurrentFEN` calls the async `isInActiveGame()` without
`await`, and the pending promise it gets back while the (negative)
indicator probes retry is truthy, so the fallback branch is always
taken and the `return null` line is unreachable. -/
theorem getCurrentFEN_fallback_despite_negative_heuristic :
    gameIndicatorsAny emptyDom = false ∧
    isInActiveGameAwaited emptyDom = false ∧
    getCurrentFEN emptyDom = some STARTING_FEN := by
  decide

/-- C10: any segment of `getAnalysis` that completes the invocation —
the success path, each precondition-failure return and the caught error
path all run the `finally` block — leaves the in-flight flag false. -/
theorem guard_released_on_completion (env : AEnv) (s : CState) (pc : APc)
    (hpc : pc ≠ APc.done) (hdone : (stepTask env s pc).2 = APc.done) :
    (stepTask env s pc).1.isAnalyzing = false := by
  cases pc with
  | start =>
      cases hA : s.isAnalyzing <;> simp [stepTask, hA] at hdone
  | activeWait =>
      cases hG : isInActiveGameAwaited env.dom with
      | false => simp [stepTask, hG]
      | true =>
          cases hB : s.isBackendConnected with
          | false => simp [stepTask, hG, hB]
          | true =>
              cases hfen : getCurrentFEN env.dom with
              | none => simp [stepTask, hG, hB, hfen]
              | some f => simp [stepTask, hG, hB, hfen] at hdone
  | fetchWait =>
      cases hF : env.fetchOk <;> simp [stepTask, hF]
  | done => exact absurd rfl hpc
  | dropped => simp [stepTask] at hdone

theorem guard_released_on_completion_witness :
    APc.fetchWait ≠ APc.done ∧
    (stepTask env0 cs1 APc.fetchWait).2 = APc.done ∧
    (stepTask env0 cs1 APc.fetchWait).1.isAnalyzing = false :=
  ⟨by decide, by decide,
   guard_released_on_completion env0 cs1 APc.fetchWait (by decide) (by decide)⟩

/-- C6 (code bug): two triggers of `getAnalysis`, the second running
while the first is suspended at its initial `await isInActiveGame()`,
both pass the in-flight guard — the flag is only set after that await —
and both issue a network call, so a second call goes out before the
first completes. -/
theorem getAnalysis_double_fire :
    (stepT2 env0 (stepT1 env0 (stepT2 env0 (stepT1 env0 sys0)))).st.callsIssued = 2 ∧
    (stepT2 env0 (stepT1 env0 (stepT2 env0 (stepT1 env0 sys0)))).st.callsCompleted = 0 ∧
    (stepT2 env0 (stepT1 env0 (stepT2 env0 (stepT1 env0 sys0)))).t1 = APc.fetchWait ∧
    (stepT2 env0 (stepT1 env0 (stepT2 env0 (stepT1 env0 sys0)))).t2 = APc.fetchWait := by
  decide

/-- C8: when the watcher's change handler reads a move-list text equal to
the previously recorded text (recorded texts are trimmed, which the
hypothesis `jsTrim t = t` reflects), it triggers no suggestion request
and leaves the recorded text and the move counter unchanged. -/
theorem analyzeMoves_unchanged_text (w : WatcherState) (t : String)
    (hrec : w.lastMoves = some t) (hinv : jsTrim t = t) :
    analyzeMoves (some t) w = (w, false) := by
  simp [analyzeMoves, hinv, hrec]

theorem analyzeMoves_unchanged_text_witness :
    w0.lastMoves = some "1.e4" ∧ jsTrim "1.e4" = "1.e4" ∧
    analyzeMoves (some "1.e4") w0 = (w0, false) :=
  ⟨rfl, by decide, analyzeMoves_unchanged_text w0 "1.e4" rfl (by decide)⟩

/-- C7: a `/suggest-move` request from a caller whose window quota is
exhausted is answered 429 by the rate-limit middleware with a
non-negative `retryAfter` (the limiter's `msBeforeNext / 1000`), and the
oracle is not called. -/
theorem suggestMove_quota_exhausted (cfg : ServerConfig)
    (oracle : String → String → Option String → String)
    (st : RLState) (req : SMRequest)
    (hex : rateLimiterPoints cfg ≤ st.consumed (effectiveUserId req)) :
    (suggestMove cfg oracle st req).1.status = 429 ∧
    (∃ r, (suggestMove cfg oracle st req).1.retryAfter = some r ∧ 0 ≤ r) ∧
    (suggestMove cfg oracle st req).2.2 = false := by
  have hc : rateLimiterPoints cfg < st.consumed (effectiveUserId req) + 1 := by
    omega
  unfold suggestMove
  rw [if_pos hc]
  refine ⟨rfl, ⟨_, rfl, ?_⟩, rfl⟩
  positivity

theorem suggestMove_quota_exhausted_witness :
    rateLimiterPoints prodConfig ≤ st10.consumed (effectiveUserId reqOk) ∧
    (suggestMove prodConfig oracle0 st10 reqOk).1.status = 429 ∧
    (suggestMove prodConfig oracle0 st10 reqOk).2.2 = false := by
  refine ⟨by decide, ?_, ?_⟩
  · exact (suggestMove_quota_exhausted prodConfig oracle0 st10 reqOk (by decide)).1
  · exact (suggestMove_quota_exhausted prodConfig oracle0 st10 reqOk (by decide)).2.2

/-- C1 (counterexample): a request lacking `gameState` from a fresh
caller is answered 400 — but the caller's quota counter is 1 afterwards,
not 0: the rate-limit middleware consumes the point before the handler
validates the body. -/
theorem suggestMove_missing_consumes_quota :
    (suggestMove prodConfig oracle0 st0 reqMissing).1.status = 400 ∧
    (suggestMove prodConfig oracle0 st0 reqMissing).1.errorMsg =
      some "Missing required game information" ∧
    (suggestMove prodConfig oracle0 st0 reqMissing).2.2 = false ∧
    st0.consumed "1.1.1.1" = 0 ∧
    (suggestMove prodConfig oracle0 st0 reqMissing).2.1.consumed "1.1.1.1" = 1 := by
  refine ⟨by decide, by decide, by decide, by decide, ?_⟩
  show (if ("1.1.1.1" : String) = effectiveUserId reqMissing
        then st0.consumed "1.1.1.1" + 1 else st0.consumed "1.1.1.1") = 1
  decide

/-- C2 (counterexample): the server-side regular expression is not
stricter than the client FEN-shape check — it never counts squares per
rank, so it accepts `"p/p/p/p/p/p/p/p w KQkq - 0 1"`, which the client
validator rejects. -/
theorem serverFenRegex_not_stricter_cex :
    serverFenRegex "p/p/p/p/p/p/p/p w KQkq - 0 1" = true ∧
    isValidFEN "p/p/p/p/p/p/p/p w KQkq - 0 1" = false := by
  decide

/-- C2 (amended): the server-side check is not stricter than the
client-side FEN-shape check: some strings accepted by the server's
regular expression are rejected by the client validator. -/
theorem serverFenRegex_not_stricter :
    ∃ s, serverFenRegex s = true ∧ isValidFEN s = false :=
  ⟨"p/p/p/p/p/p/p/p w KQkq - 0 1", by decide⟩

/-- C4 (counterexample): a FEN whose castling field `-x` violates the
castling grammar (it is neither `-` nor a string of letters from `KQkq`)
while every other field satisfies its grammar is still accepted by the
validator — the regex `/^-|[KQkq]+$/` is an unanchored alternation, so
any field starting with `-` passes. -/
theorem isValidFEN_castling_violation_accepted :
    jsSplit "rnbqkbnr/pppppppp/8/8/8/8/PPPPPPPP/RNBQKBNR w -x - 0 1" ' ' =
      ["rnbqkbnr/pppppppp/8/8/8/8/PPPPPPPP/RNBQKBNR", "w", "-x", "-", "0", "1"] ∧
    specPositionOk "rnbqkbnr/pppppppp/8/8/8/8/PPPPPPPP/RNBQKBNR" = true ∧
    specTurnOk "w" = true ∧
    specCastlingOk "-x" = false ∧
    specEnPassantOk "-" = true ∧
    specCounterOk "0" = true ∧
    specCounterOk "1" = true ∧
    isValidFEN "rnbqkbnr/pppppppp/8/8/8/8/PPPPPPPP/RNBQKBNR w -x - 0 1" = true := by
  decide

/-- C5 (counterexample): in a non-production deployment the per-window
cap is 100, but `getRemainingRequests` hardcodes 10: a caller with 11
consumed points is reported 0 remaining rather than
max(0, cap − consumed) = 89. -/
theorem getRemainingRequests_ignores_deployment_cap :
    getRemainingRequests st11 "203.0.113.7" = 0 ∧
    max 0 ((rateLimiterPoints devConfig : Int) -
      (st11.consumed "203.0.113.7" : Int)) = 89 := by
  constructor
  · show max 0 (10 - ((11 : Nat) : Int)) = 0
    decide
  · show max 0 (100 - ((11 : Nat) : Int)) = 89
    decide

theorem consumeOne_self (st : RLState) (u : String) :
    (consumeOne st u).consumed u = st.consumed u + 1 := by
  simp [consumeOne]

/-- C1 (amended): a `/suggest-move` request lacking `gameState` (or
`currentMove`) from a caller with remaining quota is answered 400 with
"Missing required game information" and the oracle is not called — but
the caller's quota counter is incremented by 1, because the rate-limit
middleware consumes the point before the handler validates the body. -/
theorem suggestMove_missing_info (cfg : ServerConfig)
    (oracle : String → String → Option String → String)
    (st : RLState) (req : SMRequest)
    (hquota : st.consumed (effectiveUserId req) < rateLimiterPoints cfg)
    (hmiss : (jsTruthyStr req.gameState && jsTruthyStr req.currentMove) = false) :
    (suggestMove cfg oracle st req).1.status = 400 ∧
    (suggestMove cfg oracle st req).1.errorMsg =
      some "Missing required game information" ∧
    (suggestMove cfg oracle st req).2.2 = false ∧
    (suggestMove cfg oracle st req).2.1.consumed (effectiveUserId req) =
      st.consumed (effectiveUserId req) + 1 := by
  have hnq : ¬ rateLimiterPoints cfg < st.consumed (effectiveUserId req) + 1 := by
    omega
  unfold suggestMove
  rw [if_neg hnq, hmiss]
  simp [consumeOne_self]

theorem suggestMove_missing_info_witness :
    st0.consumed (effectiveUserId reqMissing) < rateLimiterPoints prodConfig ∧
    (jsTruthyStr reqMissing.gameState && jsTruthyStr reqMissing.currentMove) = false ∧
    (suggestMove prodConfig oracle0 st0 reqMissing).1.status = 400 ∧
    (suggestMove prodConfig oracle0 st0 reqMissing).2.1.consumed
      (effectiveUserId reqMissing) = st0.consumed (effectiveUserId reqMissing) + 1 := by
  refine ⟨by decide, by decide, ?_, ?_⟩
  · exact (suggestMove_missing_info prodConfig oracle0 st0 reqMissing
      (by decide) (by decide)).1
  · exact (suggestMove_missing_info prodConfig oracle0 st0 reqMissing
      (by decide) (by decide)).2.2.2

theorem jsSplit_six_ne_empty {s p t c e hm fm : String}
    (h : jsSplit s ' ' = [p, t, c, e, hm, fm]) : s ≠ "" := by
  intro hs
  subst hs
  rw [show jsSplit "" ' ' = [""] from by decide] at h
  simp at h

theorem isValidFEN_of_split {s p t c e hm fm : String}
    (h : jsSplit s ' ' = [p, t, c, e, hm, fm]) :
    isValidFEN s = validFenFields [p, t, c, e, hm, fm] := by
  have hne : s ≠ "" := jsSplit_six_ne_empty h
  unfold isValidFEN
  rw [if_neg hne, h]

theorem jsIncludes_wb_of_turn {t : String} (ht : specTurnOk t = true) :
    jsIncludes "wb" t = true := by
  have h : t = "w" ∨ t = "b" := by
    simpa [specTurnOk] using ht
  rcases h with h | h <;> subst h <;> decide

theorem castlingRegexTest_of_grammar {c : String} (hc : specCastlingOk c = true) :
    castlingRegexTest c = true := by
  have h : c = "-" ∨ (c.data ≠ [] ∧ ∀ x ∈ c.data, isCastleChar x = true) := by
    simpa [specCastlingOk, List.all_eq_true, List.isEmpty_iff] using hc
  rcases h with h | ⟨hne, hall⟩
  · subst h; decide
  · unfold castlingRegexTest
    rw [List.getLast?_eq_getLast c.data hne]
    have hlast := hall _ (List.getLast_mem hne)
    simp [hlast]

/-- C4 (amended): a string with exactly six space-separated fields all
satisfying their narrow grammars passes the FEN-shape validator; and a
violation of the position, en-passant, half-move or full-move grammar
makes it fail.  (By the counterexample, single violations of the turn
and castling grammars can still be accepted, so those two fields are
excluded from the only-if direction.) -/
theorem isValidFEN_grammar_partial :
    (∀ s p t c e hm fm, jsSplit s ' ' = [p, t, c, e, hm, fm] →
      specPositionOk p = true → specTurnOk t = true → specCastlingOk c = true →
      specEnPassantOk e = true → specCounterOk hm = true → specCounterOk fm = true →
      isValidFEN s = true) ∧
    (∀ s p t c e hm fm, jsSplit s ' ' = [p, t, c, e, hm, fm] →
      specPositionOk p = false → isValidFEN s = false) ∧
    (∀ s p t c e hm fm, jsSplit s ' ' = [p, t, c, e, hm, fm] →
      specEnPassantOk e = false → isValidFEN s = false) ∧
    (∀ s p t c e hm fm, jsSplit s ' ' = [p, t, c, e, hm, fm] →
      specCounterOk hm = false → isValidFEN s = false) ∧
    (∀ s p t c e hm fm, jsSplit s ' ' = [p, t, c, e, hm, fm] →
      specCounterOk fm = false → isValidFEN s = false) := by
  refine ⟨?_, ?_, ?_, ?_, ?_⟩
  · intro s p t c e hm fm h hp ht hc he hh hf
    rw [isValidFEN_of_split h]
    simp only [validFenFields, Bool.and_eq_true]
    exact ⟨⟨⟨⟨⟨hp, jsIncludes_wb_of_turn ht⟩, castlingRegexTest_of_grammar hc⟩,
      he⟩, hh⟩, hf⟩
  · intro s p t c e hm fm h hp
    rw [isValidFEN_of_split h]
    have hp' : checkPositionField p = false := hp
    simp [validFenFields, hp']
  · intro s p t c e hm fm h he
    rw [isValidFEN_of_split h]
    have he' : enPassantRegexTest e = false := he
    simp [validFenFields, he']
  · intro s p t c e hm fm h hh
    rw [isValidFEN_of_split h]
    have hh' : digitsOnly hm = false := hh
    simp [validFenFields, hh']
  · intro s p t c e hm fm h hf
    rw [isValidFEN_of_split h]
    have hf' : digitsOnly fm = false := hf
    simp [validFenFields, hf']

theorem isValidFEN_grammar_partial_witness :
    jsSplit STARTING_FEN ' ' =
      ["rnbqkbnr/pppppppp/8/8/8/8/PPPPPPPP/RNBQKBNR", "w", "KQkq", "-", "0", "1"] ∧
    isValidFEN STARTING_FEN = true :=
  ⟨by decide,
   isValidFEN_grammar_partial.1 STARTING_FEN
     "rnbqkbnr/pppppppp/8/8/8/8/PPPPPPPP/RNBQKBNR" "w" "KQkq" "-" "0" "1"
     (by decide) (by decide) (by decide) (by decide) (by decide) (by decide)
     (by decide)⟩

theorem suggestMove_ok_eval (cfg : ServerConfig)
    (oracle : String → String → Option String → String)
    (st : RLState) (req : SMRequest) (g m : String)
    (hg : req.gameState = some g) (hm : req.currentMove = some m)
    (hgne : (g == "") = false) (hmne : (m == "") = false)
    (hnq : ¬ rateLimiterPoints cfg < st.consumed (effectiveUserId req) + 1)
    (hregex : serverFenRegex g = true) :
    suggestMove cfg oracle st req =
      ({ status := 200, errorMsg := none, retryAfter := none,
         suggestion := some (jsTrim (oracle g m req.playerColor)),
         remainingRequests := some (getRemainingRequests
           (consumeOne st (effectiveUserId req)) req.ip) },
       consumeOne st (effectiveUserId req), true) := by
  unfold suggestMove
  rw [if_neg hnq, hg, hm]
  simp [jsTruthyStr, hgne, hmne, hregex]

/-- C5 (amended): `getRemainingRequests` computes max(0, 10 − consumed)
with the cap hardcoded to 10 — the production value — rather than the
deployment's cap, and only reads the limiter; consequently, in a
production deployment, a successful `/suggest-move` response for a
caller identified by network address reports `remainingRequests`
decremented by exactly 1 from that caller's prior remaining value. -/
theorem suggestMove_decrements_remaining
    (oracle : String → String → Option String → String)
    (st : RLState) (req : SMRequest) (g m : String)
    (hid : req.xUserId = none)
    (hquota : st.consumed req.ip < 10)
    (hg : req.gameState = some g) (hgne : (g == "") = false)
    (hm : req.currentMove = some m) (hmne : (m == "") = false)
    (hregex : serverFenRegex g = true) :
    (suggestMove prodConfig oracle st req).1.status = 200 ∧
    1 ≤ getRemainingRequests st req.ip ∧
    (suggestMove prodConfig oracle st req).1.remainingRequests =
      some (getRemainingRequests st req.ip - 1) := by
  have huid : effectiveUserId req = req.ip := by
    simp [effectiveUserId, hid]
  have hcast : (st.consumed req.ip : Int) < 10 := by
    exact_mod_cast hquota
  have hnq : ¬ rateLimiterPoints prodConfig < st.consumed (effectiveUserId req) + 1 := by
    rw [huid]
    simp only [rateLimiterPoints, prodConfig, if_true]
    omega
  rw [suggestMove_ok_eval prodConfig oracle st req g m hg hm hgne hmne hnq hregex]
  refine ⟨rfl, ?_, ?_⟩
  · unfold getRemainingRequests
    rw [max_eq_right (by omega)]
    omega
  · show some (getRemainingRequests (consumeOne st (effectiveUserId req)) req.ip) = _
    rw [huid]
    unfold getRemainingRequests
    rw [consumeOne_self]
    rw [max_eq_right (by push_cast; omega), max_eq_right (by omega)]
    congr 1
    push_cast
    ring

theorem suggestMove_decrements_remaining_witness :
    st0.consumed "9.9.9.9" < 10 ∧
    serverFenRegex STARTING_FEN = true ∧
    (suggestMove prodConfig oracle0 st0 reqOk).1.status = 200 ∧
    (suggestMove prodConfig oracle0 st0 reqOk).1.remainingRequests =
      some (getRemainingRequests st0 "9.9.9.9" - 1) := by
  refine ⟨by decide, by decide, ?_, ?_⟩
  · exact (suggestMove_decrements_remaining oracle0 st0 reqOk STARTING_FEN "start"
      rfl (by decide) rfl (by decide) rfl (by decide) (by decide)).1
  · exact (suggestMove_decrements_remaining oracle0 st0 reqOk STARTING_FEN "start"
      rfl (by decide) rfl (by decide) rfl (by decide) (by decide)).2.2

end ChessAdvisor
